import Mathlib

/-!
Shallow embedding of the Matching & Reputation Engine of an event-staffing
Django application.  The definitions below are translated from
`accounts/models.py` (User methods: skill inference, job recommendation,
rating statistics, reputation scoring, review-eligibility gate),
`jobs/models.py` (Job, JobApplication, JobReview rows) and `core/views.py`
(anonymous home-page job selection).

Modelling conventions:
* Database rows become structures holding the fields the engine reads;
  foreign keys are represented by numeric ids (a JobApplication embeds its
  Job row, mirroring `select_related` access such as `app.job.title`).
* Dates and datetimes become natural numbers (day ordinals); `today` is a
  field of the database snapshot.
* Python floats become rationals; `round` becomes round-half-to-even on ℚ.
* Dynamic-name failures (Python `AttributeError` / `NameError`) are made
  explicit with an `Except PyError` result type.
-/

/-- Python runtime errors that the embedded code can raise. -/
inductive PyError where
  | attributeError (name : String)
  | nameError (name : String)
deriving DecidableEq

/-- Python `round(q)` on rationals: round half to even (banker rounding). -/
def pyRound (q : ℚ) : ℤ :=
  if q - ⌊q⌋ < 1/2 then ⌊q⌋
  else if (1:ℚ)/2 < q - ⌊q⌋ then ⌊q⌋ + 1
  else if ⌊q⌋ % 2 = 0 then ⌊q⌋ else ⌊q⌋ + 1

/-- Python `round(q, 1)`: round to one decimal digit. -/
def round1 (q : ℚ) : ℚ := (pyRound (q * 10) : ℚ) / 10

/-- Boolean substring test on character lists: does `needle` occur inside
the other list?  Models the Python `in` operator on strings. -/
def charsHaveSub (needle : List Char) : List Char → Bool
  | [] => needle.isEmpty
  | c :: rest => needle.isPrefixOf (c :: rest) || charsHaveSub needle rest

/-- Python `kw in text` (substring containment). -/
def hasSubstr (text kw : String) : Bool := charsHaveSub kw.toList text.toList

/-- Python `str.title()` restricted to the shape of the lexicon names
(lower-case words separated by single spaces): capitalize each word. -/
def pyTitle (s : String) : String :=
  " ".intercalate ((s.splitOn " ").map String.capitalize)

/-- User row, `accounts/models.py` lines 6-51: the fields read by the
engine.  `skills` is the many-to-many skill set, identified by the unique
skill name; `profile_picture` records presence of an uploaded image.
Note that the model defines NO field, property or method named
`jobs_completed`; that counter lives on the separate `UserProfile` model
(lines 308-320). -/
structure User where
  id : Nat
  first_name : String
  last_name : String
  bio : String
  location : String
  phone_number : String
  profile_picture : Bool
  is_verified : Bool
  skills : Finset String
deriving DecidableEq

/-- Job row, `jobs/models.py` lines 24-105: the fields read by the engine.
`category` and `poster` are foreign-key ids; `required_skills` is the
many-to-many skill set by name. -/
structure Job where
  id : Nat
  title : String
  description : String
  category : Nat
  poster : Nat
  location : String
  event_date : Nat
  status : String
  is_urgent : Bool
  required_skills : Finset String
  created_at : Nat
deriving DecidableEq

/-- JobApplication row, `jobs/models.py` lines 241-274.  The `job` foreign
key is embedded as the full row (the source accesses `app.job.title` via
`select_related`); `volunteer` is a user id. -/
structure JobApplication where
  job : Job
  volunteer : Nat
  status : String
  relevant_experience : String
deriving DecidableEq

/-- JobReview row, `jobs/models.py` lines 277-404: the fields read by the
engine (`job`, `reviewer`, `reviewee` as ids and the required 1-5 overall
`rating`). -/
structure JobReview where
  job : Nat
  reviewer : Nat
  reviewee : Nat
  rating : Nat
deriving DecidableEq

/-- A database snapshot: the three stores the engine reads, plus the
current date used for `timezone.now().date()`. -/
structure DB where
  jobs : List Job
  applications : List JobApplication
  reviews : List JobReview
  today : Nat
deriving DecidableEq

/-! ## Skill inference (`accounts/models.py`, `auto_detect_skills`, lines 82-131) -/

/-- The static skill lexicon, `accounts/models.py` lines 98-109. -/
def skill_keywords : List (String × List String) := [
  ("photography", ["photo", "camera", "shoot", "photographer"]),
  ("event_management", ["manage", "organize", "coordinate", "planning"]),
  ("customer_service", ["customer", "service", "reception", "front desk"]),
  ("technical_support", ["technical", "tech", "computer", "it", "sound"]),
  ("sales", ["sales", "sell", "marketing", "promotion"]),
  ("security", ["security", "guard", "safety"]),
  ("catering", ["food", "catering", "kitchen", "serve"]),
  ("decoration", ["decor", "decoration", "design", "setup"]),
  ("transportation", ["driver", "transport", "delivery"]),
  ("communication", ["presenter", "mc", "anchor", "speaking"])]

/-- Accepted applications of a user:
`JobApplication.objects.filter(volunteer=self, status=accepted)`. -/
def accepted_applications (db : DB) (uid : Nat) : List JobApplication :=
  db.applications.filter (fun a => a.volunteer == uid && a.status == "accepted")

/-- Jobs posted by a user: `Job.objects.filter(poster=self)`. -/
def posted_jobs (db : DB) (uid : Nat) : List Job :=
  db.jobs.filter (fun j => j.poster == uid)

/-- Corpus text of one accepted application, line 113:
lower-cased `job.title + job.description + relevant_experience`. -/
def application_text (a : JobApplication) : String :=
  (a.job.title ++ " " ++ a.job.description ++ " " ++ a.relevant_experience).toLower

/-- Corpus text of one posted job, line 120. -/
def posted_job_text (j : Job) : String :=
  (j.title ++ " " ++ j.description).toLower

/-- `any(keyword in job_text for keyword in keywords)`, lines 115 and 122. -/
def keyword_hit (text : String) (kws : List String) : Bool :=
  kws.any (fun k => hasSubstr text k)

/-- The set of detected lexicon names for a user (lines 111-123): a
category is detected when some accepted application or some posted job has
a corpus text containing one of its keywords.  The two loops accumulate
into a set, so the list of detected names in lexicon order is a faithful
rendering. -/
def detected_skills (db : DB) (uid : Nat) : List String :=
  (skill_keywords.filter (fun entry =>
      (accepted_applications db uid).any (fun a => keyword_hit (application_text a) entry.2) ||
      (posted_jobs db uid).any (fun j => keyword_hit (posted_job_text j) entry.2))).map
    Prod.fst

/-- Display name of a detected skill, line 128:
`skill_name.replace(underscore, space).title()`. -/
def skill_display_name (s : String) : String := pyTitle (s.replace "_" " ")

/-- `auto_detect_skills`, lines 82-131: get-or-create a Skill row for each
detected name and add it to the user skill set.  Skills are identified by
their unique name, so the effect on the user is a set union. -/
def auto_detect_skills (db : DB) (u : User) : User :=
  { u with skills := u.skills ∪ ((detected_skills db u.id).map skill_display_name).toFinset }

/-! ## Job recommendation (`accounts/models.py`, `get_recommended_jobs`, lines 133-161) -/

/-- Base candidates, lines 138-141:
`Job.objects.filter(status=published, event_date__gte=today)`. -/
def published_upcoming (db : DB) : List Job :=
  db.jobs.filter (fun j => j.status == "published" && decide (db.today ≤ j.event_date))

/-- Skill narrowing, lines 144-147: when the user has at least one skill,
keep jobs whose required skills meet the user skills
(`required_skills__in=self.skills.all()`, followed by `distinct()`; the
candidate rows are pairwise distinct, so `distinct()` is the identity
here). -/
def skill_filtered (db : DB) (u : User) : List Job :=
  if u.skills ≠ ∅ then
    (published_upcoming db).filter (fun j => decide (j.required_skills ∩ u.skills ≠ ∅))
  else published_upcoming db

/-- The location-filter branch, lines 150-158.  Its first statement
`location_queries = Q()` evaluates the bare name `Q`, but the module
imports of `accounts/models.py` (lines 1-3) bring in only `AbstractUser`,
`models` and `RegexValidator`; `Q` is unbound, so the branch raises
`NameError` before any filtering happens. -/
def location_branch_q (_u : User) (_jobs : List Job) : Except PyError (List Job) :=
  Except.error (PyError.nameError "Q")

/-- Ordering key of line 161, `order_by(-is_urgent, -created_at)`:
`a` comes strictly before `b`. -/
def recommend_before (a b : Job) : Bool :=
  if a.is_urgent == b.is_urgent then decide (b.created_at < a.created_at) else a.is_urgent

/-- Insert a job into an ordered list (model of the database sort). -/
def insertOrdered (before : Job → Job → Bool) (j : Job) : List Job → List Job
  | [] => [j]
  | x :: xs => if before j x then j :: x :: xs else x :: insertOrdered before j xs

/-- Sort a job list by the given strict precedence (insertion sort; ties
keep an unspecified database order, which no claim depends on). -/
def sortJobs (before : Job → Job → Bool) : List Job → List Job
  | [] => []
  | x :: xs => insertOrdered before x (sortJobs before xs)

/-- `get_recommended_jobs`, lines 133-161: base candidates, optional skill
narrowing, then the location branch (which always raises `NameError`, see
`location_branch_q`), then ordering and truncation to `limit`. -/
def get_recommended_jobs (db : DB) (u : User) (limit : Nat) : Except PyError (List Job) :=
  if u.location ≠ "" then
    Except.bind (location_branch_q u (skill_filtered db u)) fun narrowed =>
      Except.ok ((sortJobs recommend_before narrowed).take limit)
  else
    Except.ok ((sortJobs recommend_before (skill_filtered db u)).take limit)

/-! ## Rating statistics and reputation (`accounts/models.py`, lines 163-247) -/

/-- Reviews received: `JobReview.objects.filter(reviewee=self)`. -/
def reviews_received (db : DB) (u : User) : List JobReview :=
  db.reviews.filter (fun r => r.reviewee == u.id)

/-- `total_reviews_count`, lines 172-176. -/
def total_reviews_count (db : DB) (u : User) : Nat :=
  (reviews_received db u).length

/-- `average_rating`, lines 163-170: the mean of received ratings rounded
to ONE DECIMAL (`round(avg, 1)`); `0.0` when there are no reviews. -/
def average_rating (db : DB) (u : User) : ℚ :=
  if (reviews_received db u).length ≠ 0 then
    round1 ((((reviews_received db u).map JobReview.rating).sum : ℚ) /
      ((reviews_received db u).length : ℚ))
  else 0

/-- Number of truthy fields among the six checked profile fields,
`_calculate_profile_completeness`, lines 240-247. -/
def completed_fields (u : User) : Nat :=
  List.count true [u.first_name != "", u.last_name != "", u.bio != "",
    u.location != "", u.phone_number != "", u.profile_picture]

/-- Profile completeness as a fraction in [0,1], lines 240-247. -/
def profile_completeness (u : User) : ℚ :=
  (completed_fields u : ℚ) / 6

/-- Rating component, line 208: `(average_rating / 5) * 50`. -/
def rating_score (db : DB) (u : User) : ℚ :=
  (average_rating db u / 5) * 50

/-- Review-volume component, line 211: `min(total_reviews_count * 2, 20)`. -/
def review_count_score (db : DB) (u : User) : ℚ :=
  min ((total_reviews_count db u : ℚ) * 2) 20

/-- Verification component, line 214: `15 if is_verified else 0`. -/
def verification_score (u : User) : ℚ :=
  if u.is_verified then 15 else 0

/-- Profile component, line 217: completeness times 10. -/
def profile_score (u : User) : ℚ :=
  profile_completeness u * 10

/-- Activity component, line 220: `min(jobs_completed * 0.5, 5)`. -/
def activity_score (jobs_completed : Nat) : ℚ :=
  min ((jobs_completed : ℚ) * 0.5) 5

/-- Python attribute lookup of `self.jobs_completed` on a `User` instance
(line 220).  The `User` model (lines 6-295 of `accounts/models.py`)
defines no field, property or method of that name; the counter exists only
on the separate `UserProfile` model (line 318).  The lookup therefore
raises `AttributeError` for every user. -/
def getattr_jobs_completed (_u : User) : Except PyError Nat :=
  Except.error (PyError.attributeError "jobs_completed")

/-- `reputation_score`, lines 204-223: the five components are summed and
the result is `min(round(total), 100)`.  The activity component reads the
nonexistent attribute `jobs_completed`, so evaluation raises. -/
def reputation_score (db : DB) (u : User) : Except PyError ℤ :=
  Except.bind (getattr_jobs_completed u) fun jobs_completed =>
    Except.ok (min (pyRound (rating_score db u + review_count_score db u +
      verification_score u + profile_score u + activity_score jobs_completed)) 100)

/-- Tier thresholds of `reputation_level`, lines 225-238 (the level label;
the color and icon strings are presentation metadata). -/
def level_of_score (s : ℤ) : String :=
  if 90 ≤ s then "Elite"
  else if 75 ≤ s then "Excellent"
  else if 60 ≤ s then "Good"
  else if 40 ≤ s then "Fair"
  else "New"

/-- `reputation_level`, lines 225-238: applies the thresholds to
`reputation_score` (and therefore propagates its `AttributeError`). -/
def reputation_level (db : DB) (u : User) : Except PyError String :=
  Except.map level_of_score (reputation_score db u)

/-- Follows the spec words (section 4.3), for comparison with
`reputation_score`: rating component from the EXACT mean of received
ratings, and the activity component computed from a supplied
`jobs_completed` counter (the spec places the counter on the user; the
code finds it only on `UserProfile`).  The upper cap mirrors
`min(round(total), 100)`; the lower bound is proved, not imposed. -/
def average_rating_exact (db : DB) (u : User) : ℚ :=
  if (reviews_received db u).length ≠ 0 then
    (((reviews_received db u).map JobReview.rating).sum : ℚ) /
      ((reviews_received db u).length : ℚ)
  else 0

/-- Follows the spec words (section 4.3): the intended total score with an
exact rating mean and an explicit `jobs_completed` counter. -/
def reputation_score_spec (db : DB) (u : User) (jobs_completed : Nat) : ℤ :=
  min (pyRound ((average_rating_exact db u / 5) * 50 + review_count_score db u +
    verification_score u + profile_score u + activity_score jobs_completed)) 100

/-! ## Review-eligibility gate (`accounts/models.py`, `can_leave_review_for`, lines 249-282) -/

/-- Rejection message of the co-participation check, line 268. -/
def msg_not_worked : String := "You haven\x27t worked together on this job"

/-- Rejection message of the completion check, line 272. -/
def msg_not_completed : String := "Job must be completed before leaving reviews"

/-- Rejection message of the uniqueness check, line 280. -/
def msg_already : String := "You have already reviewed this person for this job"

/-- Success message, line 282. -/
def msg_can : String := "Can leave review"

/-- Co-participation, lines 253-265: the poster side may review a
volunteer with an accepted application, and such a volunteer may review
the poster; anything else is not co-participation. -/
def worked_together (db : DB) (self user : User) (job : Job) : Bool :=
  if self.id == job.poster then
    db.applications.any (fun a =>
      a.job.id == job.id && a.volunteer == user.id && a.status == "accepted")
  else if user.id == job.poster then
    db.applications.any (fun a =>
      a.job.id == job.id && a.volunteer == self.id && a.status == "accepted")
  else false

/-- Uniqueness check, lines 274-277: does a review by `self` about `user`
for this job already exist? -/
def review_exists (db : DB) (self user : User) (job : Job) : Bool :=
  db.reviews.any (fun r =>
    r.job == job.id && r.reviewer == self.id && r.reviewee == user.id)

/-- `can_leave_review_for`, lines 249-282: the three checks in order, each
short-circuiting with its message; the gate is a pure query (the source
only calls `exists()`) and creates nothing. -/
def can_leave_review_for (db : DB) (self user : User) (job : Job) : Bool × String :=
  if !(worked_together db self user job) then (false, msg_not_worked)
  else if job.status != "completed" then (false, msg_not_completed)
  else if review_exists db self user job then (false, msg_already)
  else (true, msg_can)

/-! ## Anonymous home-page selection (`core/views.py`, `home`, lines 53-71) -/

/-- Keep the first occurrence of every value, dropping later duplicates
(SQL DISTINCT read in query order). -/
def dedupFirstAux {α : Type} [DecidableEq α] (seen : List α) : List α → List α
  | [] => []
  | c :: cs => if c ∈ seen then dedupFirstAux seen cs else c :: dedupFirstAux (c :: seen) cs

/-- Distinct values in order of first appearance. -/
def dedupFirst {α : Type} [DecidableEq α] (l : List α) : List α := dedupFirstAux [] l

/-- Newest-first ordering of line 58, `order_by(-created_at)`. -/
def created_before (a b : Job) : Bool := decide (b.created_at < a.created_at)

/-- Lines 55-58: today-or-later published jobs, newest first. -/
def anon_featured_base (db : DB) : List Job :=
  sortJobs created_before (published_upcoming db)

/-- Lines 61-64: `values_list(category, flat=True).distinct()` on the
candidate queryset.  Because `Job.Meta` declares
`ordering = [-created_at]` (`jobs/models.py` line 108), Django adds the
ordering column to the SELECT of this values query, so the DISTINCT is
taken over `(category, created_at)` PAIRS: a category is listed once per
distinct `created_at` among its candidate jobs, newest first - the list
can repeat a category. -/
def anon_categories (db : DB) : List Nat :=
  (dedupFirst ((anon_featured_base db).map (fun j => (j.category, j.created_at)))).map
    Prod.fst

/-- Line 68: at most two candidate jobs of one category, newest first. -/
def category_chunk (featured : List Job) (c : Nat) : List Job :=
  (featured.filter (fun j => j.category == c)).take 2

/-- Concatenation of the per-category selections of the loop in
lines 66-69. -/
def listFlat (f : Nat → List Job) : List Nat → List Job
  | [] => []
  | c :: cs => f c ++ listFlat f cs

/-- Lines 53-71, the anonymous branch of `home`: collect at most two jobs
for each of at most the FIRST SIX entries of the category list
(`categories[:6]` - entries, not necessarily distinct categories, see
`anon_categories`), then truncate to eight; when that selection is empty
fall back to the first eight candidates. -/
def home_featured_anon (db : DB) : List Job :=
  let diverse := listFlat (category_chunk (anon_featured_base db)) ((anon_categories db).take 6)
  if diverse ≠ [] then diverse.take 8 else (anon_featured_base db).take 8

/-- Follows the spec words (section 4.4, anonymous fallback): the
candidates are grouped by their DISTINCT categories. -/
def spec_categories (db : DB) : List Nat :=
  dedupFirst ((anon_featured_base db).map Job.category)

/-- Follows the spec words (section 4.4, anonymous fallback), for
comparison with `home_featured_anon`: round-robin at most two jobs per
distinct category into the result until the limit is reached or the
categories are exhausted - with NO six-category cap. -/
def anon_fallback_spec (db : DB) (limit : Nat) : List Job :=
  (listFlat (category_chunk (anon_featured_base db)) (spec_categories db)).take limit

/-! ## Concrete fixtures used by witnesses and counterexamples -/

/-- A user with every optional field blank. -/
def blank_user (i : Nat) : User := ⟨i, "", "", "", "", "", false, false, ∅⟩

/-- Fixture for C1: an empty snapshot and a fresh user. -/
def db_c1 : DB := ⟨[], [], [], 0⟩

/-- Fixture for C3: a published job posted by user 1, no applications. -/
def job_c3 : Job := ⟨31, "t", "d", 1, 1, "loc", 5, "published", false, ∅, 10⟩

/-- Fixture for C3: snapshot holding only `job_c3`. -/
def db_c3 : DB := ⟨[job_c3], [], [], 0⟩

/-- Fixture for C4 (spec Scenario D): a completed job posted by user 1. -/
def job_c4 : Job := ⟨41, "t", "d", 1, 1, "loc", 5, "completed", false, ∅, 10⟩

/-- Fixture for C4 (spec Scenario D): a PENDING application of user 2. -/
def app_c4 : JobApplication := ⟨job_c4, 2, "pending", ""⟩

/-- Fixture for C4: snapshot with the completed job and pending application. -/
def db_c4 : DB := ⟨[job_c4], [app_c4], [], 0⟩

/-- Fixture for C6 (spec Scenario C): skills Photography and Catering,
location Mumbai, Maharashtra. -/
def user_c6 : User := ⟨10, "", "", "", "Mumbai, Maharashtra", "", false, false,
  {"Photography", "Catering"}⟩

/-- Fixture for C6: a published Photography job in Mumbai. -/
def job_mumbai : Job := ⟨21, "Wedding Photography", "Need photographer for wedding shoot",
  1, 2, "Mumbai", 5, "published", false, {"Photography"}, 100⟩

/-- Fixture for C6: a published Security job in Delhi. -/
def job_delhi : Job := ⟨22, "Security Staff", "Guard duty at venue",
  2, 3, "Delhi", 5, "published", false, {"Security"}, 99⟩

/-- Fixture for C6: snapshot with both jobs. -/
def db_c6 : DB := ⟨[job_mumbai, job_delhi], [], [], 0⟩

/-- Fixture for C7: a user with non-empty location. -/
def user_c7 : User := ⟨7, "", "", "", "Pune", "", false, false, ∅⟩

/-- Fixture for C7: a user with empty location. -/
def user_c7e : User := blank_user 8

/-- Fixture for C8 (spec Scenario A): verified user, all six profile
fields complete. -/
def user_c8 : User := ⟨1, "Asha", "Rao", "Event worker", "Mumbai",
  "+911234567890", true, true, ∅⟩

/-- Fixture for C8: received ratings 5, 5 and 4. -/
def db_c8 : DB := ⟨[], [], [⟨11, 2, 1, 5⟩, ⟨12, 3, 1, 5⟩, ⟨13, 4, 1, 4⟩], 0⟩

/-- Fixture for C9: seven published jobs in seven distinct categories,
newest first by construction. -/
def job_c9 (k : Nat) : Job := ⟨90 + k, "", "", k, 1, "", 5, "published", false, ∅, 200 - k⟩

/-- Fixture for C9: snapshot with the seven jobs. -/
def db_c9 : DB :=
  ⟨[job_c9 1, job_c9 2, job_c9 3, job_c9 4, job_c9 5, job_c9 6, job_c9 7], [], [], 0⟩

/-- Fixture for C9: two published jobs of ONE category with different
creation timestamps, so the category list carries the category twice. -/
def job_c9d (k : Nat) : Job := ⟨80 + k, "", "", 1, 1, "", 5, "published", false, ∅, 150 - k⟩

/-- Fixture for C9: snapshot with the two same-category jobs. -/
def db_c9d : DB := ⟨[job_c9d 1, job_c9d 2], [], [], 0⟩

/-- Fixture for C10: a completed job posted by user 1 with no
applications (denial by the co-participation check). -/
def job_c10a : Job := ⟨51, "", "", 1, 1, "", 5, "completed", false, ∅, 10⟩

/-- Fixture for C10: snapshot for the co-participation denial. -/
def db_c10a : DB := ⟨[job_c10a], [], [], 0⟩

/-- Fixture for C10: a still-published job posted by user 1. -/
def job_c10b : Job := ⟨52, "", "", 1, 1, "", 5, "published", false, ∅, 10⟩

/-- Fixture for C10: user 2 has an ACCEPTED application for `job_c10b`
(denial by the completion check). -/
def db_c10b : DB := ⟨[job_c10b], [⟨job_c10b, 2, "accepted", ""⟩], [], 0⟩

/-! ## Helper lemmas -/

/-- Membership in an insertion step of the sort model. -/
theorem mem_insertOrdered {before : Job → Job → Bool} {j a : Job} {l : List Job} :
    a ∈ insertOrdered before j l ↔ a = j ∨ a ∈ l := by
  induction l with
  | nil => simp [insertOrdered]
  | cons x xs ih =>
    rw [insertOrdered]
    split_ifs with h
    · simp [List.mem_cons]
    · simp only [List.mem_cons, ih]
      tauto

/-- Sorting does not change the members of a job list. -/
theorem mem_sortJobs {before : Job → Job → Bool} {a : Job} {l : List Job} :
    a ∈ sortJobs before l ↔ a ∈ l := by
  induction l with
  | nil => simp [sortJobs]
  | cons x xs ih => simp [sortJobs, mem_insertOrdered, ih]

/-- Membership in the concatenated per-category selections. -/
theorem mem_listFlat {f : Nat → List Job} {cs : List Nat} {j : Job} :
    j ∈ listFlat f cs ↔ ∃ c ∈ cs, j ∈ f c := by
  induction cs with
  | nil => simp [listFlat]
  | cons c cs ih => simp [listFlat, ih]

/-- A job of a category selection belongs to the candidate list and has
that category. -/
theorem mem_category_chunk {featured : List Job} {c : Nat} {j : Job}
    (h : j ∈ category_chunk featured c) : j ∈ featured ∧ j.category = c := by
  rw [category_chunk] at h
  have h' := List.mem_of_mem_take h
  have h'' := List.mem_filter.mp h'
  exact ⟨h''.1, by simpa using h''.2⟩

/-- When there is at least one candidate, the diverse selection of the
anonymous home page is nonempty. -/
theorem listFlat_anon_ne_nil {db : DB} {j : Job} {t : List Job}
    (hjt : anon_featured_base db = j :: t) :
    listFlat (category_chunk (anon_featured_base db)) ((anon_categories db).take 6) ≠ [] := by
  have hcats : ∃ cs, (anon_categories db).take 6 = j.category :: cs := by
    rw [anon_categories, hjt, List.map_cons, dedupFirst, dedupFirstAux]
    rw [if_neg (List.not_mem_nil _), List.map_cons]
    exact ⟨_, rfl⟩
  obtain ⟨cs, hcs⟩ := hcats
  rw [hcs, listFlat]
  have hj : j ∈ category_chunk (anon_featured_base db) j.category := by
    rw [category_chunk, hjt, List.filter_cons, if_pos (by simp), List.take_succ_cons]
    exact List.mem_cons_self _ _
  exact List.ne_nil_of_mem (List.mem_append_left _ hj)

/-! ## Claims -/

/-- C2: for every user, evaluating the reputation score - and the
reputation tier, which calls it - raises `AttributeError`, because the
activity component reads `self.jobs_completed`, a counter defined only on
the separate `UserProfile` model; the score is never computable. -/
theorem claim_C2_reputation_always_raises (db : DB) (u : User) :
    reputation_score db u = Except.error (PyError.attributeError "jobs_completed")
  ∧ reputation_level db u = Except.error (PyError.attributeError "jobs_completed") :=
  ⟨rfl, rfl⟩

/-- C5: skill inference is monotone (the skill set only grows) and
idempotent (a second run on the same job and application data changes
nothing, since detection reads only the activity corpus, never the
current skill set). -/
theorem claim_C5_inference_monotone_idempotent (db : DB) (u : User) :
    u.skills ⊆ (auto_detect_skills db u).skills
  ∧ auto_detect_skills db (auto_detect_skills db u) = auto_detect_skills db u := by
  refine ⟨Finset.subset_union_left, ?_⟩
  simp [auto_detect_skills, Finset.union_assoc]

/-- C6 (code bug): on the spec Scenario C input - user with skills
Photography and Catering and location Mumbai, Maharashtra, with a matching
published Mumbai job and a non-matching Delhi job - the recommender does
not return the Mumbai job: the location branch evaluates the unbound name
`Q` and raises `NameError`.  With an empty location the same snapshot is
returned un-narrowed, newest first. -/
theorem claim_C6_location_filter_raises :
    get_recommended_jobs db_c6 user_c6 6 = Except.error (PyError.nameError "Q")
  ∧ get_recommended_jobs db_c6 (blank_user 11) 6 = Except.ok [job_mumbai, job_delhi] :=
  ⟨rfl, rfl⟩

/-- C7: for every snapshot and limit, a non-empty location makes
`get_recommended_jobs` raise `NameError` on the unbound name `Q`, and an
empty location always yields a successful job list. -/
theorem claim_C7_name_error_q (db : DB) (u : User) (limit : Nat) :
    (u.location ≠ "" → get_recommended_jobs db u limit = Except.error (PyError.nameError "Q"))
  ∧ (u.location = "" → ∃ jobs, get_recommended_jobs db u limit = Except.ok jobs) := by
  constructor
  · intro h
    rw [get_recommended_jobs, if_pos h]
    rfl
  · intro h
    rw [get_recommended_jobs, if_neg (fun hn => hn h)]
    exact ⟨_, rfl⟩

/-- Witness for C7: a user located in Pune is answered with `NameError`,
while a user with a blank location receives a job list. -/
theorem claim_C7_name_error_q_witness :
    get_recommended_jobs db_c6 user_c7 6 = Except.error (PyError.nameError "Q")
  ∧ ∃ jobs, get_recommended_jobs db_c6 user_c7e 6 = Except.ok jobs :=
  ⟨(claim_C7_name_error_q db_c6 user_c7 6).1 (by decide),
   (claim_C7_name_error_q db_c6 user_c7e 6).2 rfl⟩

/-- C10 counterexample: two denials with different failing checks - one
co-participation failure, one completion failure - agree on every
component of the returned pair except the message string; the gate
returns a bare (bool, message) pair and no enumerated reason code, so
without comparing strings the two rejections are indistinguishable. -/
theorem claim_C10_reason_code_counterexample :
    can_leave_review_for db_c10a (blank_user 1) (blank_user 2) job_c10a = (false, msg_not_worked)
  ∧ can_leave_review_for db_c10b (blank_user 1) (blank_user 2) job_c10b = (false, msg_not_completed)
  ∧ (can_leave_review_for db_c10a (blank_user 1) (blank_user 2) job_c10a).1 =
      (can_leave_review_for db_c10b (blank_user 1) (blank_user 2) job_c10b).1
  ∧ msg_not_worked ≠ msg_not_completed := by
  refine ⟨by decide, by decide, by decide, by decide⟩

/-- C10 amended: every result of the gate is one of the four fixed
(bool, message) pairs, and the three denial messages are pairwise
distinct - so callers can distinguish the rejections, but only by
comparing the returned message string. -/
theorem claim_C10_distinct_messages (db : DB) (self user : User) (job : Job) :
    (can_leave_review_for db self user job = (false, msg_not_worked)
     ∨ can_leave_review_for db self user job = (false, msg_not_completed)
     ∨ can_leave_review_for db self user job = (false, msg_already)
     ∨ can_leave_review_for db self user job = (true, msg_can))
  ∧ msg_not_worked ≠ msg_not_completed
  ∧ msg_not_worked ≠ msg_already
  ∧ msg_not_completed ≠ msg_already := by
  refine ⟨?_, by decide, by decide, by decide⟩
  rw [can_leave_review_for]
  split_ifs <;> simp

/-- C3: the eligibility gate, modelled as a pure function with no store
writes, evaluates co-participation, completion and uniqueness in that
order and short-circuits: a co-participation failure yields the first
message whatever the job status and review store hold; with
co-participation, a non-completed job yields the second message whatever
the review store holds; then an existing review yields the third message;
and when all three checks pass the gate allows. -/
theorem claim_C3_gate_order (db : DB) (self user : User) (job : Job) :
    (worked_together db self user job = false →
      ∀ (st : String) (rs : List JobReview),
        can_leave_review_for { db with reviews := rs } self user { job with status := st } =
          (false, msg_not_worked))
  ∧ (worked_together db self user job = true → job.status ≠ "completed" →
      ∀ rs : List JobReview,
        can_leave_review_for { db with reviews := rs } self user job =
          (false, msg_not_completed))
  ∧ (worked_together db self user job = true → job.status = "completed" →
      review_exists db self user job = true →
      can_leave_review_for db self user job = (false, msg_already))
  ∧ (worked_together db self user job = true → job.status = "completed" →
      review_exists db self user job = false →
      can_leave_review_for db self user job = (true, msg_can)) := by
  refine ⟨?_, ?_, ?_, ?_⟩
  · intro hw st rs
    rw [can_leave_review_for,
      show worked_together { db with reviews := rs } self user { job with status := st } = false
        from hw]
    rfl
  · intro hw hst rs
    rw [can_leave_review_for,
      show worked_together { db with reviews := rs } self user job = true from hw]
    simp [hst]
  · intro hw hst hr
    simp [can_leave_review_for, hw, hst, hr]
  · intro hw hst hr
    simp [can_leave_review_for, hw, hst, hr]

/-- Witness for C3: on a snapshot where the would-be reviewer posted the
job but no application was ever accepted, the gate denies with the
co-participation message even though the job is completed and the review
store is empty. -/
theorem claim_C3_gate_order_witness :
    can_leave_review_for { db_c3 with reviews := [] } (blank_user 1) (blank_user 2)
      { job_c3 with status := "completed" } = (false, msg_not_worked) :=
  (claim_C3_gate_order db_c3 (blank_user 1) (blank_user 2) job_c3).1 (by decide) "completed" []

/-- C4: co-participation holds exactly when one party posted the job and
the other has an application for it with status accepted; whenever it
fails, the gate denies with the did-not-work-together message. -/
theorem claim_C4_co_participation (db : DB) (self user : User) (job : Job) :
    (worked_together db self user job = true ↔
      ((self.id = job.poster ∧ ∃ a ∈ db.applications,
          a.job.id = job.id ∧ a.volunteer = user.id ∧ a.status = "accepted")
       ∨ (user.id = job.poster ∧ ∃ a ∈ db.applications,
          a.job.id = job.id ∧ a.volunteer = self.id ∧ a.status = "accepted")))
  ∧ (worked_together db self user job = false →
      can_leave_review_for db self user job = (false, msg_not_worked)) := by
  constructor
  · rw [worked_together]
    by_cases h1 : self.id = job.poster
    · rw [if_pos (by simp [h1])]
      simp only [List.any_eq_true, Bool.and_eq_true, beq_iff_eq]
      constructor
      · rintro ⟨a, ha, ⟨hj, hv⟩, hs⟩
        exact Or.inl ⟨h1, a, ha, hj, hv, hs⟩
      · rintro (⟨-, a, ha, hj, hv, hs⟩ | ⟨h2, a, ha, hj, hv, hs⟩)
        · exact ⟨a, ha, ⟨hj, hv⟩, hs⟩
        · exact ⟨a, ha, ⟨hj, by rw [hv, h1, ← h2]⟩, hs⟩
    · rw [if_neg (by simp [h1])]
      by_cases h2 : user.id = job.poster
      · rw [if_pos (by simp [h2])]
        simp only [List.any_eq_true, Bool.and_eq_true, beq_iff_eq]
        constructor
        · rintro ⟨a, ha, ⟨hj, hv⟩, hs⟩
          exact Or.inr ⟨h2, a, ha, hj, hv, hs⟩
        · rintro (⟨h1', -⟩ | ⟨-, a, ha, hj, hv, hs⟩)
          · exact absurd h1' h1
          · exact ⟨a, ha, ⟨hj, hv⟩, hs⟩
      · rw [if_neg (by simp [h2])]
        constructor
        · intro h
          exact absurd h (by simp)
        · rintro (⟨h1', -⟩ | ⟨h2', -⟩)
          · exact absurd h1' h1
          · exact absurd h2' h2
  · intro h
    simp [can_leave_review_for, h]

/-- Witness for C4 (spec Scenario D): a pending - not accepted -
application between poster and volunteer on a completed job is denied
with the did-not-work-together message. -/
theorem claim_C4_co_participation_witness :
    can_leave_review_for db_c4 (blank_user 1) (blank_user 2) job_c4 = (false, msg_not_worked) :=
  (claim_C4_co_participation db_c4 (blank_user 1) (blank_user 2) job_c4).2 (by decide)

/-- Rounding keeps nonnegative rationals nonnegative. -/
theorem pyRound_nonneg {q : ℚ} (h : 0 ≤ q) : 0 ≤ pyRound q := by
  have hf : (0:ℤ) ≤ ⌊q⌋ := Int.floor_nonneg.mpr h
  rw [pyRound]
  split_ifs <;> omega

/-- C1 (code bug): the intended reputation score - the spec composition
with the activity counter supplied - is always an integer in [0,100]; the
code as written never produces it, raising `AttributeError` instead,
shown here on a fresh blank user. -/
theorem claim_C1_score_bounds :
    reputation_score db_c1 (blank_user 1) = Except.error (PyError.attributeError "jobs_completed")
  ∧ ∀ (db : DB) (u : User) (jc : Nat),
      0 ≤ reputation_score_spec db u jc ∧ reputation_score_spec db u jc ≤ 100 := by
  refine ⟨rfl, fun db u jc => ⟨?_, min_le_right _ _⟩⟩
  have h1 : 0 ≤ average_rating_exact db u := by
    rw [average_rating_exact]
    split_ifs
    · exact div_nonneg (by positivity) (by positivity)
    · exact le_refl 0
  have h2 : 0 ≤ review_count_score db u := le_min (by positivity) (by norm_num)
  have h3 : 0 ≤ verification_score u := by
    rw [verification_score]
    split_ifs <;> norm_num
  have h4 : 0 ≤ profile_score u := by
    rw [profile_score, profile_completeness]
    positivity
  have h5 : 0 ≤ activity_score jc := le_min (by positivity) (by norm_num)
  have hT : 0 ≤ (average_rating_exact db u / 5) * 50 + review_count_score db u +
      verification_score u + profile_score u + activity_score jc := by
    have h6 : 0 ≤ (average_rating_exact db u / 5) * 50 := by positivity
    linarith
  rw [reputation_score_spec]
  exact le_min (pyRound_nonneg hT) (by norm_num)

/-- On the Scenario A fixture the stored average is the ROUNDED mean 4.7,
not the exact 14/3. -/
theorem c8_average_rating_eval : average_rating db_c8 user_c8 = 47/10 := by
  have hlist : reviews_received db_c8 user_c8 =
      [⟨11, 2, 1, 5⟩, ⟨12, 3, 1, 5⟩, ⟨13, 4, 1, 4⟩] := rfl
  rw [average_rating, hlist]
  norm_num [round1, pyRound]

/-- On the Scenario A fixture the rating component is exactly 47. -/
theorem c8_rating_score_eval : rating_score db_c8 user_c8 = 47 := by
  rw [rating_score, c8_average_rating_eval]
  norm_num

/-- On the Scenario A fixture the spec-composed score with 10 completed
jobs is 83. -/
theorem c8_spec_score_eval : reputation_score_spec db_c8 user_c8 10 = 83 := by
  have hlist : reviews_received db_c8 user_c8 =
      [⟨11, 2, 1, 5⟩, ⟨12, 3, 1, 5⟩, ⟨13, 4, 1, 4⟩] := rfl
  have hc : completed_fields user_c8 = 6 := rfl
  have ht : total_reviews_count db_c8 user_c8 = 3 := rfl
  rw [reputation_score_spec, average_rating_exact, hlist, review_count_score, ht,
    verification_score, profile_score, profile_completeness, hc, activity_score]
  norm_num [user_c8, pyRound]

/-- C8 counterexample: on the Scenario A input - ratings 5, 5, 4,
verified, six of six profile fields, ten jobs completed - the rating
component is 47, not 46.67 and not the exact-mean value 140/3, because
`average_rating` rounds the mean to one decimal (4.7) before scaling;
and the full score expression raises `AttributeError` rather than
producing 83. -/
theorem claim_C8_scenario_a_counterexample :
    rating_score db_c8 user_c8 = 47
  ∧ (47:ℚ) ≠ 4667/100
  ∧ (47:ℚ) ≠ 140/3
  ∧ reputation_score db_c8 user_c8 = Except.error (PyError.attributeError "jobs_completed") :=
  ⟨c8_rating_score_eval, by norm_num, by norm_num, rfl⟩

/-- C8 amended: on Scenario A the components are 47 (rating, from the
rounded average 4.7), 6, 15 and 10; the score as coded raises
`AttributeError` on the activity component, and with the activity counter
supplied the spec composition totals 83 with tier Excellent. -/
theorem claim_C8_scenario_a_amended :
    average_rating db_c8 user_c8 = 47/10
  ∧ rating_score db_c8 user_c8 = 47
  ∧ review_count_score db_c8 user_c8 = 6
  ∧ verification_score user_c8 = 15
  ∧ profile_score user_c8 = 10
  ∧ reputation_score db_c8 user_c8 = Except.error (PyError.attributeError "jobs_completed")
  ∧ reputation_score_spec db_c8 user_c8 10 = 83
  ∧ level_of_score (reputation_score_spec db_c8 user_c8 10) = "Excellent" := by
  refine ⟨c8_average_rating_eval, c8_rating_score_eval, ?_, ?_, ?_, rfl, c8_spec_score_eval, ?_⟩
  · have ht : total_reviews_count db_c8 user_c8 = 3 := rfl
    rw [review_count_score, ht]
    norm_num
  · norm_num [verification_score, user_c8]
  · have hc : completed_fields user_c8 = 6 := rfl
    rw [profile_score, profile_completeness, hc]
    norm_num
  · rw [c8_spec_score_eval]
    rfl

/-- C9 counterexample, two independent refutations of the claimed
round-robin.  First, with seven published single-job categories the home
page returns only six jobs although the limit is eight - the code slices
`categories[:6]`, while the spec text continues until the limit is
reached or the categories are exhausted.  Second, with one category
holding two jobs of different creation timestamps, the category list
(DISTINCT over `(category, created_at)` pairs because of the default
model ordering) carries that category twice, so the same two jobs are
appended twice and the result holds FOUR entries of one category - not
at most two. -/
theorem claim_C9_six_category_cap_counterexample :
    home_featured_anon db_c9 ≠ anon_fallback_spec db_c9 8
  ∧ (home_featured_anon db_c9).length = 6
  ∧ (anon_fallback_spec db_c9 8).length = 7
  ∧ (home_featured_anon db_c9d).countP (fun j => j.category == 1) = 4
  ∧ home_featured_anon db_c9d = [job_c9d 1, job_c9d 2, job_c9d 1, job_c9d 2] :=
  ⟨by decide, by decide, by decide, by decide, by decide⟩

/-- C9 amended: the anonymous home-page selection takes at most eight
entries, drawn from at most the first six entries of the category list
(hence from at most six distinct categories); entries can repeat a job
when a category is listed once per distinct creation timestamp, but per
category at most two DISTINCT jobs ever appear - each entry re-selects
the same top-two newest jobs of its category - and every selected job is
a published, today-or-later candidate. -/
theorem claim_C9_anon_home_amended (db : DB) :
    (home_featured_anon db).length ≤ 8
  ∧ (∀ c : Nat,
      ((home_featured_anon db).filter (fun j => j.category == c)).toFinset.card ≤ 2)
  ∧ ((home_featured_anon db).map Job.category).toFinset.card ≤ 6
  ∧ (home_featured_anon db).all
      (fun j => j.status == "published" && decide (db.today ≤ j.event_date)) = true := by
  rcases hbase : anon_featured_base db with _ | ⟨j, t⟩
  · have hhome : home_featured_anon db = [] := by
      simp [home_featured_anon, anon_categories, hbase, dedupFirst, dedupFirstAux, listFlat]
    rw [hhome]
    exact ⟨by simp, fun c => by simp, by simp, by simp⟩
  · have hne := listFlat_anon_ne_nil hbase
    have hhome : home_featured_anon db =
        (listFlat (category_chunk (anon_featured_base db))
          ((anon_categories db).take 6)).take 8 := by
      simp only [home_featured_anon]
      rw [if_pos hne]
    rw [hhome]
    refine ⟨List.length_take_le _ _, ?_, ?_, ?_⟩
    · intro c
      have hsub : ((((listFlat (category_chunk (anon_featured_base db))
            ((anon_categories db).take 6)).take 8).filter
              (fun j => j.category == c)).toFinset : Finset Job) ⊆
          (category_chunk (anon_featured_base db) c).toFinset := by
        intro x hx
        rw [List.mem_toFinset] at hx
        have hflt := List.mem_filter.mp hx
        have hx2 := List.mem_of_mem_take hflt.1
        obtain ⟨b, hb, hjb⟩ := mem_listFlat.mp hx2
        have hcat := (mem_category_chunk hjb).2
        have hcc : x.category = c := by simpa using hflt.2
        have hcb : c = b := by rw [← hcc]; exact hcat
        rw [List.mem_toFinset, hcb]
        exact hjb
      refine le_trans (Finset.card_le_card hsub)
        (le_trans (List.toFinset_card_le _) ?_)
      rw [category_chunk]
      exact List.length_take_le _ _
    · have hsub : (((listFlat (category_chunk (anon_featured_base db))
          ((anon_categories db).take 6)).take 8).map Job.category).toFinset ⊆
          ((anon_categories db).take 6).toFinset := by
        intro x hx
        rw [List.mem_toFinset] at hx
        obtain ⟨jx, hjx, rfl⟩ := List.mem_map.mp hx
        have hjx2 := List.mem_of_mem_take hjx
        obtain ⟨b, hb, hjb⟩ := mem_listFlat.mp hjx2
        rw [List.mem_toFinset, (mem_category_chunk hjb).2]
        exact hb
      exact le_trans (Finset.card_le_card hsub)
        (le_trans (List.toFinset_card_le _) (List.length_take_le _ _))
    · rw [List.all_eq_true]
      intro jx hjx
      have hjx2 := List.mem_of_mem_take hjx
      obtain ⟨b, hb, hjb⟩ := mem_listFlat.mp hjx2
      have hjf := (mem_category_chunk hjb).1
      have hmem : jx ∈ published_upcoming db := by
        rw [anon_featured_base] at hjf
        exact mem_sortJobs.mp hjf
      exact (List.mem_filter.mp hmem).2
